import Mathlib

/-!
Verification development for the sfrom container codec
(crates/sfrom/src/lib.rs).  The Rust code is shallowly embedded:
byte buffers are `List Nat` (each element a `u8` value), nom-style
parsers become functions `List Nat → Except PErr (List Nat × α)`
returning the unconsumed input together with the parsed value, and
the `Write + Seek` sink of `Sfrom::write` becomes a pure `List Nat`
of emitted bytes (all seeks in `Sfrom::write` target the current
position, so the emitted stream is the plain concatenation of the
sections in program order).
-/

/-- Failure modes of the embedded parsers.  `eof` models
`nom::error::ErrorKind::Eof` (used by `take`, the little-endian
number parsers and the explicit length check in `Sfrom::parse`);
`tagMismatch` models `ErrorKind::Tag` from the `tag` combinator;
`sliceOob` models a Rust panic from an out-of-range slice index
(`input[a..b]` with `a > b` or `b > input.len()`), which in the
source aborts the process rather than returning an error value. -/
inductive PErr : Type where
  | eof : PErr
  | tagMismatch : PErr
  | sliceOob : PErr
deriving DecidableEq

/-- Little-endian value of a byte list: `leNum [b0, b1, ...] = b0 + 256*b1 + ...`. -/
def leNum (bs : List Nat) : Nat := bs.foldr (fun b acc => b + 256 * acc) 0

/-- Bytes of `(n : u16).to_le_bytes()`. -/
def le16 (n : Nat) : List Nat := [n % 256, n / 256 % 256]

/-- Bytes of `(n : u32).to_le_bytes()`. -/
def le32 (n : Nat) : List Nat :=
  [n % 256, n / 256 % 256, n / 65536 % 256, n / 16777216 % 256]

/-- `nom::number::complete::le_u8` (a one-byte take). -/
def rdU8 (input : List Nat) : Except PErr (List Nat × Nat) :=
  if input.length < 1 then .error .eof
  else .ok (input.drop 1, leNum (input.take 1))

/-- `nom::number::complete::le_u16`. -/
def rdU16 (input : List Nat) : Except PErr (List Nat × Nat) :=
  if input.length < 2 then .error .eof
  else .ok (input.drop 2, leNum (input.take 2))

/-- `nom::number::complete::le_u32`. -/
def rdU32 (input : List Nat) : Except PErr (List Nat × Nat) :=
  if input.length < 4 then .error .eof
  else .ok (input.drop 4, leNum (input.take 4))

/-- The repository helper `le_u24` (a `take(3)` followed by
`b0 | b1 << 8 | b2 << 16`). -/
def rdU24 (input : List Nat) : Except PErr (List Nat × Nat) :=
  if input.length < 3 then .error .eof
  else .ok (input.drop 3, leNum (input.take 3))

/-- `nom::bytes::complete::take(n)`. -/
def rdTake (n : Nat) (input : List Nat) : Except PErr (List Nat × List Nat) :=
  if input.length < n then .error .eof
  else .ok (input.drop n, input.take n)

/-- Rust slice `l[a..b]`: the sub-list when `a ≤ b ≤ l.length`,
a panic (modelled as `PErr.sliceOob`) otherwise. -/
def sliceRange (a b : Nat) (l : List Nat) : Except PErr (List Nat) :=
  if a ≤ b ∧ b ≤ l.length then .ok ((l.drop a).take (b - a)) else .error .sliceOob

/-- Rust slice `l[a..]`: the suffix when `a ≤ l.length`, a panic otherwise. -/
def sliceFrom (a : Nat) (l : List Nat) : Except PErr (List Nat) :=
  if a ≤ l.length then .ok (l.drop a) else .error .sliceOob

/-- `struct SfromHeader` from the source (all `u32` fields plus the
8-byte `wiiu_game_id`).  Machine integers are `Nat`; the `[u8; 8]`
array is a `List Nat` (length 8 for values built by the parser). -/
structure SfromHeader : Type where
  magic : Nat
  file_size : Nat
  rom_location : Nat
  pcm_samples_location : Nat
  pcm_footer_location : Nat
  footer_location : Nat
  sdd1_data_offset : Nat
  reserved1 : Nat
  unknown1 : Nat
  wiiu_game_id : List Nat
  reserved2 : Nat
deriving DecidableEq

/-- `SfromHeader::parse`: a nom `tuple` of ten `le_u32` readers with a
`take(8)` before the last one, in the fixed source order. -/
def SfromHeader.parse (input : List Nat) : Except PErr (List Nat × SfromHeader) :=
  match rdU32 input with
  | .error e => .error e
  | .ok (i, magic) =>
  match rdU32 i with
  | .error e => .error e
  | .ok (i, file_size) =>
  match rdU32 i with
  | .error e => .error e
  | .ok (i, rom_location) =>
  match rdU32 i with
  | .error e => .error e
  | .ok (i, pcm_samples_location) =>
  match rdU32 i with
  | .error e => .error e
  | .ok (i, pcm_footer_location) =>
  match rdU32 i with
  | .error e => .error e
  | .ok (i, footer_location) =>
  match rdU32 i with
  | .error e => .error e
  | .ok (i, sdd1_data_offset) =>
  match rdU32 i with
  | .error e => .error e
  | .ok (i, reserved1) =>
  match rdU32 i with
  | .error e => .error e
  | .ok (i, unknown1) =>
  match rdTake 8 i with
  | .error e => .error e
  | .ok (i, wiiu_game_id) =>
  match rdU32 i with
  | .error e => .error e
  | .ok (i, reserved2) =>
    .ok (i, { magic, file_size, rom_location, pcm_samples_location,
              pcm_footer_location, footer_location, sdd1_data_offset,
              reserved1, unknown1, wiiu_game_id, reserved2 })

/-- `struct SfromFooter` from the source. -/
structure SfromFooter : Type where
  fps : Nat
  rom_size : Nat
  pcm_samples_size : Nat
  pcm_footer_size : Nat
  preset_id : Nat
  player_count : Nat
  sound_volume : Nat
  rom_type : Nat
  enhancement_chip : Nat
  unknown1 : Nat
  unknown2 : Nat
deriving DecidableEq

/-- `SfromFooter::parse`: the nom `tuple`
`(le_u8, le_u32, le_u32, le_u32, le_u16, le_u8, le_u8, le_u8, le_u8, le_u32, le_u32)`. -/
def SfromFooter.parse (input : List Nat) : Except PErr (List Nat × SfromFooter) :=
  match rdU8 input with
  | .error e => .error e
  | .ok (i, fps) =>
  match rdU32 i with
  | .error e => .error e
  | .ok (i, rom_size) =>
  match rdU32 i with
  | .error e => .error e
  | .ok (i, pcm_samples_size) =>
  match rdU32 i with
  | .error e => .error e
  | .ok (i, pcm_footer_size) =>
  match rdU16 i with
  | .error e => .error e
  | .ok (i, preset_id) =>
  match rdU8 i with
  | .error e => .error e
  | .ok (i, player_count) =>
  match rdU8 i with
  | .error e => .error e
  | .ok (i, sound_volume) =>
  match rdU8 i with
  | .error e => .error e
  | .ok (i, rom_type) =>
  match rdU8 i with
  | .error e => .error e
  | .ok (i, enhancement_chip) =>
  match rdU32 i with
  | .error e => .error e
  | .ok (i, unknown1) =>
  match rdU32 i with
  | .error e => .error e
  | .ok (i, unknown2) =>
    .ok (i, { fps, rom_size, pcm_samples_size, pcm_footer_size, preset_id,
              player_count, sound_volume, rom_type, enhancement_chip,
              unknown1, unknown2 })

/-- The footer section of `Sfrom::write` (lines 390-402): one byte,
three `u32.to_le_bytes`, one `u16.to_le_bytes`, the four-byte array
`[player_count, sound_volume, rom_type, enhancement_chip]`, then two
more `u32.to_le_bytes` — 27 bytes in all. -/
def SfromFooter.encode (f : SfromFooter) : List Nat :=
  [f.fps] ++ le32 f.rom_size ++ le32 f.pcm_samples_size ++
    le32 f.pcm_footer_size ++ le16 f.preset_id ++
    [f.player_count, f.sound_volume, f.rom_type, f.enhancement_chip] ++
    le32 f.unknown1 ++ le32 f.unknown2

/-- `struct GameTagData` from the source: seventeen optional tag
payloads; only the tags with codes 65 (A), 68 (D) and 71 (G) are ever
populated by a parser. -/
structure GameTagData : Type where
  armet_threshold : Option (List Nat)
  sdd1_data : Option (List Nat)
  preset_id : Option Nat
  flags : Option (List Nat)
  unknown_s : Option (List Nat)
  superfx_clock : Option Nat
  armet_version : Option Nat
  snes_header_location : Option Nat
  unknown_d : Option Nat
  enhancement_chip : Option Nat
  resolution_ratio : Option Nat
  unknown_j : Option Nat
  mouse_flag : Option Nat
  max_players : Option Nat
  visible_height : Option Nat
  unknown_t : Option Nat
  volume : Option Nat
deriving DecidableEq

/-- The all-`None` initializer that `GameTagData::parse` builds before
entering its loop. -/
def GameTagData.empty : GameTagData :=
  { armet_threshold := none, sdd1_data := none, preset_id := none,
    flags := none, unknown_s := none, superfx_clock := none,
    armet_version := none, snes_header_location := none,
    unknown_d := none, enhancement_chip := none,
    resolution_ratio := none, unknown_j := none, mouse_flag := none,
    max_players := none, visible_height := none, unknown_t := none,
    volume := none }

/-- `GameTagData::parse_tag_a`: `tag("A")` (the one-byte code 65) then
`take(3)`. -/
def GameTagData.parse_tag_a (input : List Nat) : Except PErr (List Nat × List Nat) :=
  match input with
  | b :: rest =>
      if b = 65 then
        if rest.length < 3 then .error .eof
        else .ok (rest.drop 3, rest.take 3)
      else .error .tagMismatch
  | [] => .error .tagMismatch

/-- `GameTagData::parse_tag_d`: `tag("D")` (the one-byte code 68), a
3-byte little-endian length, then that many payload bytes. -/
def GameTagData.parse_tag_d (input : List Nat) : Except PErr (List Nat × List Nat) :=
  match input with
  | b :: rest =>
      if b = 68 then
        if rest.length < 3 then .error .eof
        else
          let size := leNum (rest.take 3)
          let r2 := rest.drop 3
          if r2.length < size then .error .eof
          else .ok (r2.drop size, r2.take size)
      else .error .tagMismatch
  | [] => .error .tagMismatch

/-- `GameTagData::parse_tag_g`: `tag("G")` (the one-byte code 71),
three skipped bytes, then a little-endian `u16` preset identifier. -/
def GameTagData.parse_tag_g (input : List Nat) : Except PErr (List Nat × Nat) :=
  match input with
  | b :: rest =>
      if b = 71 then
        if rest.length < 3 then .error .eof
        else
          let r2 := rest.drop 3
          if r2.length < 2 then .error .eof
          else .ok (r2.drop 2, leNum (r2.take 2))
      else .error .tagMismatch
  | [] => .error .tagMismatch

/-- The `while !remaining.is_empty()` loop of `GameTagData::parse`:
dispatch on the head byte, run the matching tag parser and overwrite
that tag's field, stop (without error) on any unknown byte.  The
`fuel` argument only bounds the number of iterations so the
definition is structurally recursive; every continuing iteration
consumes at least one byte, so `fuel = remaining.length` always
suffices (`GameTagData.parseLoop_fuel` below proves the fuel
irrelevance, and the zero-fuel row is unreachable from `parse`). -/
def GameTagData.parseLoop (fuel : Nat) (acc : GameTagData) (remaining : List Nat) :
    Except PErr (List Nat × GameTagData) :=
  match fuel, remaining with
  | _, [] => .ok ([], acc)
  | 0, b :: rest => .ok (b :: rest, acc)
  | fuel + 1, b :: rest =>
      if b = 65 then
        match GameTagData.parse_tag_a (b :: rest) with
        | .error e => .error e
        | .ok (new_input, data) =>
            GameTagData.parseLoop fuel { acc with armet_threshold := some data } new_input
      else if b = 68 then
        match GameTagData.parse_tag_d (b :: rest) with
        | .error e => .error e
        | .ok (new_input, data) =>
            GameTagData.parseLoop fuel { acc with sdd1_data := some data } new_input
      else if b = 71 then
        match GameTagData.parse_tag_g (b :: rest) with
        | .error e => .error e
        | .ok (new_input, data) =>
            GameTagData.parseLoop fuel { acc with preset_id := some data } new_input
      else .ok (b :: rest, acc)

/-- `GameTagData::parse`: start from the all-`None` table and run the
dispatch loop over the whole input. -/
def GameTagData.parse (input : List Nat) : Except PErr (List Nat × GameTagData) :=
  GameTagData.parseLoop input.length GameTagData.empty input

/-- `struct Sfrom` from the source. -/
structure Sfrom : Type where
  header : SfromHeader
  rom_data : List Nat
  pcm_data : Option (List Nat)
  pcm_footer : Option (List Nat)
  footer : SfromFooter
  game_tags : GameTagData
deriving DecidableEq

/-- The `rom_end` computation at the top of `Sfrom::parse`:
`pcm_samples_location` when it differs from `footer_location`,
`footer_location` otherwise. -/
def Sfrom.romEnd (header : SfromHeader) : Nat :=
  if header.pcm_samples_location ≠ header.footer_location then
    header.pcm_samples_location
  else header.footer_location

/-- The body of `Sfrom::parse` after the header has been consumed
(`input` is the nom remainder, i.e. the buffer minus its first 48
bytes).  Mirrors the source exactly: the only explicit bounds check
is `input.len() < rom_end` (a nom `Eof` error); every slice after it
can panic (`PErr.sliceOob`). -/
def Sfrom.parseBody (header : SfromHeader) (input : List Nat) :
    Except PErr (List Nat × Sfrom) :=
  let rom_end := Sfrom.romEnd header
  let rom_start := header.rom_location
  if input.length < rom_end then .error .eof
  else
    match sliceRange rom_start rom_end input with
    | .error e => .error e
    | .ok rom_data =>
    match
      (if header.pcm_samples_location ≠ header.footer_location then
        match sliceRange header.pcm_samples_location header.pcm_footer_location input with
        | .error e => .error e
        | .ok pcm_data =>
        match sliceRange header.pcm_footer_location header.footer_location input with
        | .error e => .error e
        | .ok pcm_footer => .ok (some pcm_data, some pcm_footer)
      else .ok (none, none) : Except PErr (Option (List Nat) × Option (List Nat))) with
    | .error e => .error e
    | .ok (pcm_data, pcm_footer) =>
    match sliceFrom header.footer_location input with
    | .error e => .error e
    | .ok footer_input =>
    match SfromFooter.parse footer_input with
    | .error e => .error e
    | .ok (remaining, footer) =>
    match GameTagData.parse remaining with
    | .error e => .error e
    | .ok (remaining, game_tags) =>
      .ok (remaining, { header, rom_data, pcm_data, pcm_footer, footer, game_tags })

/-- `Sfrom::parse`: parse the header, then run the body on the nom
remainder. -/
def Sfrom.parse (input : List Nat) : Except PErr (List Nat × Sfrom) :=
  match SfromHeader.parse input with
  | .error e => .error e
  | .ok (input, header) => Sfrom.parseBody header input

/-- The offset computation at the top of `Sfrom::write`
(header_size = 0x30 = 48): returns
`(pcm_start, pcm_footer_start, footer_start)`. -/
def Sfrom.layout (s : Sfrom) : Nat × Nat × Nat :=
  let rom_end := 48 + s.rom_data.length
  match s.pcm_data, s.pcm_footer with
  | some pcm, some pcm_footer =>
      (rom_end, rom_end + pcm.length, rom_end + pcm.length + pcm_footer.length)
  | _, _ => (rom_end, rom_end, rom_end)

/-- The `game_tags_size` computation in `Sfrom::write`: 4 bytes when
`armet_threshold` is present, `4 + len` when `sdd1_data` is present;
no other tag contributes (the source stops there). -/
def Sfrom.gameTagsSize (s : Sfrom) : Nat :=
  (if s.game_tags.armet_threshold.isSome then 4 else 0) +
    (match s.game_tags.sdd1_data with
     | some data => 4 + data.length
     | none => 0)

/-- `total_size = footer_start + 0x23 + game_tags_size` from
`Sfrom::write` (0x23 = 35, although the footer section it writes is
27 bytes long). -/
def Sfrom.totalSize (s : Sfrom) : Nat :=
  (Sfrom.layout s).2.2 + 0x23 + Sfrom.gameTagsSize s

/-- The header section of `Sfrom::write` (lines 363-374): magic
0x100, the recomputed total size and offsets, the carried-over
`sdd1_data_offset`, a zero reserved word, the carried-over `unknown1`
and `wiiu_game_id`, and a second zero reserved word. -/
def Sfrom.headerBytes (s : Sfrom) : List Nat :=
  le32 0x100 ++ le32 (Sfrom.totalSize s) ++ le32 48 ++
    le32 (Sfrom.layout s).1 ++ le32 (Sfrom.layout s).2.1 ++
    le32 (Sfrom.layout s).2.2 ++ le32 s.header.sdd1_data_offset ++
    le32 0 ++ le32 s.header.unknown1 ++ s.header.wiiu_game_id ++ le32 0

/-- `Sfrom::write_game_tags`: emit tag 65 (A) with its 3 raw bytes
when present, then tag 68 (D) with a 3-byte little-endian length
prefix (`(len as u32).to_le_bytes()[0..3]`) and the payload.  No
other tag is emitted — the source ends with a `... write other
tags ...` comment. -/
def GameTagData.write_game_tags (t : GameTagData) : List Nat :=
  (match t.armet_threshold with
   | some threshold => [65] ++ threshold
   | none => []) ++
  (match t.sdd1_data with
   | some data => [68] ++ (le32 data.length).take 3 ++ data
   | none => [])

/-- The audio section of `Sfrom::write`: both blobs when the pair is
present, nothing otherwise (an unmatched `Some` on one side is
treated as absent, exactly like the `if let (Some, Some)` in the
source). -/
def Sfrom.pcmBytes (s : Sfrom) : List Nat :=
  match s.pcm_data, s.pcm_footer with
  | some pcm, some pcm_footer => pcm ++ pcm_footer
  | _, _ => []

/-- `Sfrom::write` as the byte stream it emits.  All seeks in the
source target the position the writer is already at (48 after the
header, `rom_end` after the ROM, and so on), so the stream is the
concatenation of the sections in program order: header, ROM, audio
pair (when present), footer, game tags. -/
def Sfrom.writeBytes (s : Sfrom) : List Nat :=
  Sfrom.headerBytes s ++ s.rom_data ++ Sfrom.pcmBytes s ++
    SfromFooter.encode s.footer ++ GameTagData.write_game_tags s.game_tags

/-- A result-inspection helper: `true` exactly on `Except.ok`. -/
def isOkResult {α : Type} (r : Except PErr α) : Bool :=
  match r with
  | .ok _ => true
  | .error _ => false

/-- Well-formedness of a footer value: every field fits the machine
width it has in the Rust struct (`u8`, `u16` or `u32`). -/
def SfromFooter.wf (f : SfromFooter) : Prop :=
  f.fps < 256 ∧ f.rom_size < 4294967296 ∧ f.pcm_samples_size < 4294967296 ∧
    f.pcm_footer_size < 4294967296 ∧ f.preset_id < 65536 ∧
    f.player_count < 256 ∧ f.sound_volume < 256 ∧ f.rom_type < 256 ∧
    f.enhancement_chip < 256 ∧ f.unknown1 < 4294967296 ∧ f.unknown2 < 4294967296

/-- Header of the concrete scenario container (canonical values for a
93-byte no-audio file: offsets 48/58/58/58). -/
def exHeader : SfromHeader :=
  { magic := 0x100, file_size := 93, rom_location := 48,
    pcm_samples_location := 58, pcm_footer_location := 58,
    footer_location := 58, sdd1_data_offset := 0, reserved1 := 0,
    unknown1 := 0, wiiu_game_id := List.replicate 8 0, reserved2 := 0 }

/-- Footer of the concrete scenario container: 60 fps, 10-byte ROM, no
audio, one player, full volume, LoROM, no enhancement chip. -/
def exFooter : SfromFooter :=
  { fps := 0x3C, rom_size := 10, pcm_samples_size := 0,
    pcm_footer_size := 0, preset_id := 0, player_count := 1,
    sound_volume := 255, rom_type := 0x14, enhancement_chip := 0,
    unknown1 := 1, unknown2 := 1 }

/-- The concrete scenario container: a 10-byte ROM, no audio pair, an
empty tag table. -/
def exContainer : Sfrom :=
  { header := exHeader, rom_data := List.replicate 10 170,
    pcm_data := none, pcm_footer := none, footer := exFooter,
    game_tags := GameTagData.empty }

/-- A header whose magic, size, offset and reserved fields are all
scrambled; only `sdd1_data_offset`, `unknown1` and `wiiu_game_id`
agree with `exHeader`. -/
def exHeaderScrambled : SfromHeader :=
  { magic := 7, file_size := 999, rom_location := 123,
    pcm_samples_location := 5, pcm_footer_location := 77,
    footer_location := 9, sdd1_data_offset := 0, reserved1 := 41,
    unknown1 := 0, wiiu_game_id := List.replicate 8 0, reserved2 := 17 }

/-- A 75-byte all-zero buffer: its magic field decodes to 0, not
0x100, yet it is structurally parseable (all offsets 0, a 27-byte
zero footer, an empty tag table). -/
def cexBufNoMagic : List Nat := List.replicate 75 0

/-- A 68-byte buffer whose header declares an audio pair
(`pcm_samples_location = 10 ≠ footer_location = 20`) with
`pcm_footer_location = 200` far beyond the end of the buffer. -/
def cexBufOob : List Nat :=
  le32 0x100 ++ le32 0 ++ le32 0 ++ le32 10 ++ le32 200 ++ le32 20 ++
    le32 0 ++ le32 0 ++ le32 0 ++ List.replicate 8 0 ++ le32 0 ++
    List.replicate 20 0

/-- A 48-byte buffer (header only) whose `footer_location` and
`pcm_samples_location` are 5, so `rom_end = 5` exceeds the empty
post-header remainder. -/
def cexBufShortRom : List Nat :=
  le32 0x100 ++ le32 0 ++ le32 0 ++ le32 5 ++ le32 5 ++ le32 5 ++
    le32 0 ++ le32 0 ++ le32 0 ++ List.replicate 8 0 ++ le32 0

/-- The header value that `SfromHeader.parse` reads from
`cexBufShortRom`. -/
def cexHdrShortRom : SfromHeader :=
  { magic := 0x100, file_size := 0, rom_location := 0,
    pcm_samples_location := 5, pcm_footer_location := 5,
    footer_location := 5, sdd1_data_offset := 0, reserved1 := 0,
    unknown1 := 0, wiiu_game_id := List.replicate 8 0, reserved2 := 0 }

/-- A tag table whose only present tag is the preset identifier
(tag code 71, value 0x1234). -/
def gTagOnlyPreset : GameTagData :=
  { GameTagData.empty with preset_id := some 0x1234 }

/-- A tag table with neither the threshold tag nor the embedded-data
tag, but two other tags present. -/
def gTagOtherOnly : GameTagData :=
  { GameTagData.empty with preset_id := some 5, volume := some 7 }

/-- A successful one-byte read: value and remainder. -/
theorem rdU8_ok (input : List Nat) (h : 1 ≤ input.length) :
    rdU8 input = .ok (input.drop 1, leNum (input.take 1)) := by
  rw [rdU8, if_neg (by omega)]

/-- A successful two-byte little-endian read. -/
theorem rdU16_ok (input : List Nat) (h : 2 ≤ input.length) :
    rdU16 input = .ok (input.drop 2, leNum (input.take 2)) := by
  rw [rdU16, if_neg (by omega)]

/-- A successful four-byte little-endian read. -/
theorem rdU32_ok (input : List Nat) (h : 4 ≤ input.length) :
    rdU32 input = .ok (input.drop 4, leNum (input.take 4)) := by
  rw [rdU32, if_neg (by omega)]

/-- A successful `take n`. -/
theorem rdTake_ok (n : Nat) (input : List Nat) (h : n ≤ input.length) :
    rdTake n input = .ok (input.drop n, input.take n) := by
  rw [rdTake, if_neg (by omega)]

/-- Little-endian decode inverts the 4-byte encode modulo 2^32. -/
theorem leNum_le32 (n : Nat) : leNum (le32 n) = n % 4294967296 := by
  simp only [leNum, le32, List.foldr]
  omega

/-- Little-endian decode inverts the 2-byte encode modulo 2^16. -/
theorem leNum_le16 (n : Nat) : leNum (le16 n) = n % 65536 := by
  simp only [leNum, le16, List.foldr]
  omega

/-- Characterization of `SfromFooter.parse` on inputs of at least 27
bytes: it consumes exactly 27 bytes and fills the eleven fields from
the fixed little-endian layout. -/
theorem footer_parse_char (input : List Nat) (h : 27 ≤ input.length) :
    SfromFooter.parse input = .ok (input.drop 27,
      ⟨leNum (input.take 1), leNum ((input.drop 1).take 4),
       leNum ((input.drop 5).take 4), leNum ((input.drop 9).take 4),
       leNum ((input.drop 13).take 2), leNum ((input.drop 15).take 1),
       leNum ((input.drop 16).take 1), leNum ((input.drop 17).take 1),
       leNum ((input.drop 18).take 1), leNum ((input.drop 19).take 4),
       leNum ((input.drop 23).take 4)⟩) := by
  rw [SfromFooter.parse]
  rw [rdU8_ok _ (by omega)]; simp only []
  rw [rdU32_ok _ (by simp only [List.length_drop]; omega)]; simp only []
  rw [rdU32_ok _ (by simp only [List.length_drop]; omega)]; simp only []
  rw [rdU32_ok _ (by simp only [List.length_drop]; omega)]; simp only []
  rw [rdU16_ok _ (by simp only [List.length_drop]; omega)]; simp only []
  rw [rdU8_ok _ (by simp only [List.length_drop]; omega)]; simp only []
  rw [rdU8_ok _ (by simp only [List.length_drop]; omega)]; simp only []
  rw [rdU8_ok _ (by simp only [List.length_drop]; omega)]; simp only []
  rw [rdU8_ok _ (by simp only [List.length_drop]; omega)]; simp only []
  rw [rdU32_ok _ (by simp only [List.length_drop]; omega)]; simp only []
  rw [rdU32_ok _ (by simp only [List.length_drop]; omega)]
  simp only [List.drop_drop]

/-- `SfromFooter.parse` fails with the nom `Eof` error on any input
shorter than 27 bytes. -/
theorem footer_parse_short (input : List Nat) (h : input.length < 27) :
    SfromFooter.parse input = .error .eof := by
  rw [SfromFooter.parse]
  by_cases h1 : input.length < 1
  · rw [rdU8, if_pos h1]
  · rw [rdU8_ok _ (by omega)]; simp only []
    by_cases h2 : (input.drop 1).length < 4
    · rw [rdU32, if_pos h2]
    · rw [rdU32_ok _ (by omega)]; simp only []
      by_cases h3 : ((input.drop 1).drop 4).length < 4
      · rw [rdU32, if_pos h3]
      · rw [rdU32_ok _ (by omega)]; simp only []
        by_cases h4 : (((input.drop 1).drop 4).drop 4).length < 4
        · rw [rdU32, if_pos h4]
        · rw [rdU32_ok _ (by omega)]; simp only []
          by_cases h5 : ((((input.drop 1).drop 4).drop 4).drop 4).length < 2
          · rw [rdU16, if_pos h5]
          · rw [rdU16_ok _ (by omega)]; simp only []
            by_cases h6 : (((((input.drop 1).drop 4).drop 4).drop 4).drop 2).length < 1
            · rw [rdU8, if_pos h6]
            · rw [rdU8_ok _ (by omega)]; simp only []
              by_cases h7 : ((((((input.drop 1).drop 4).drop 4).drop 4).drop 2).drop 1).length < 1
              · rw [rdU8, if_pos h7]
              · rw [rdU8_ok _ (by omega)]; simp only []
                by_cases h8 : (((((((input.drop 1).drop 4).drop 4).drop 4).drop 2).drop 1).drop 1).length < 1
                · rw [rdU8, if_pos h8]
                · rw [rdU8_ok _ (by omega)]; simp only []
                  by_cases h9 : ((((((((input.drop 1).drop 4).drop 4).drop 4).drop 2).drop 1).drop 1).drop 1).length < 1
                  · rw [rdU8, if_pos h9]
                  · rw [rdU8_ok _ (by omega)]; simp only []
                    by_cases h10 : (((((((((input.drop 1).drop 4).drop 4).drop 4).drop 2).drop 1).drop 1).drop 1).drop 1).length < 4
                    · rw [rdU32, if_pos h10]
                    · rw [rdU32_ok _ (by omega)]; simp only []
                      rw [rdU32, if_pos (by simp only [List.length_drop] at *; omega)]

/-- Decoding the 27 bytes that `SfromFooter.encode` emits (followed by
anything) recovers the footer and leaves the trailer unconsumed. -/
theorem footer_roundtrip (f : SfromFooter) (rest : List Nat) (hwf : f.wf) :
    SfromFooter.parse (SfromFooter.encode f ++ rest) = .ok (rest, f) := by
  obtain ⟨fps, rs, ps, pf, pi, pc, sv, rt, ec, u1, u2⟩ := f
  simp only [SfromFooter.wf] at hwf
  obtain ⟨w1, w2, w3, w4, w5, w6, w7, w8, w9, w10, w11⟩ := hwf
  have hstep : SfromFooter.parse
      (SfromFooter.encode ⟨fps, rs, ps, pf, pi, pc, sv, rt, ec, u1, u2⟩ ++ rest) = .ok (rest,
      ⟨leNum [fps], leNum (le32 rs), leNum (le32 ps), leNum (le32 pf),
       leNum (le16 pi), leNum [pc], leNum [sv], leNum [rt], leNum [ec],
       leNum (le32 u1), leNum (le32 u2)⟩) := rfl
  rw [hstep]
  simp only [Except.ok.injEq, Prod.mk.injEq, SfromFooter.mk.injEq, true_and]
  refine ⟨?_, ?_, ?_, ?_, ?_, ?_, ?_, ?_, ?_, ?_, ?_⟩ <;>
    simp only [leNum, le32, le16, List.foldr] <;> omega

/-- `SfromHeader.parse` fails with the nom `Eof` error on any input
shorter than 48 bytes. -/
theorem header_parse_short (input : List Nat) (h : input.length < 48) :
    SfromHeader.parse input = .error .eof := by
  rw [SfromHeader.parse]
  by_cases h1 : input.length < 4
  · rw [rdU32, if_pos h1]
  · rw [rdU32_ok _ (by omega)]; simp only []
    by_cases h2 : (input.drop 4).length < 4
    · rw [rdU32, if_pos h2]
    · rw [rdU32_ok _ (by omega)]; simp only []
      by_cases h3 : ((input.drop 4).drop 4).length < 4
      · rw [rdU32, if_pos h3]
      · rw [rdU32_ok _ (by omega)]; simp only []
        by_cases h4 : (((input.drop 4).drop 4).drop 4).length < 4
        · rw [rdU32, if_pos h4]
        · rw [rdU32_ok _ (by omega)]; simp only []
          by_cases h5 : ((((input.drop 4).drop 4).drop 4).drop 4).length < 4
          · rw [rdU32, if_pos h5]
          · rw [rdU32_ok _ (by omega)]; simp only []
            by_cases h6 : (((((input.drop 4).drop 4).drop 4).drop 4).drop 4).length < 4
            · rw [rdU32, if_pos h6]
            · rw [rdU32_ok _ (by omega)]; simp only []
              by_cases h7 : ((((((input.drop 4).drop 4).drop 4).drop 4).drop 4).drop 4).length < 4
              · rw [rdU32, if_pos h7]
              · rw [rdU32_ok _ (by omega)]; simp only []
                by_cases h8 : (((((((input.drop 4).drop 4).drop 4).drop 4).drop 4).drop 4).drop 4).length < 4
                · rw [rdU32, if_pos h8]
                · rw [rdU32_ok _ (by omega)]; simp only []
                  by_cases h9 : ((((((((input.drop 4).drop 4).drop 4).drop 4).drop 4).drop 4).drop 4).drop 4).length < 4
                  · rw [rdU32, if_pos h9]
                  · rw [rdU32_ok _ (by omega)]; simp only []
                    by_cases h10 : (((((((((input.drop 4).drop 4).drop 4).drop 4).drop 4).drop 4).drop 4).drop 4).drop 4).length < 8
                    · rw [rdTake, if_pos h10]
                    · rw [rdTake_ok _ _ (by omega)]; simp only []
                      rw [rdU32, if_pos (by simp only [List.length_drop] at *; omega)]

/-- Characterization of `SfromHeader.parse` on a buffer whose first
four bytes encode `m`: the stored magic is `m % 2^32` and every other
field is read from the tail, independently of `m`. -/
theorem header_parse_append (m : Nat) (rest : List Nat) (h : 44 ≤ rest.length) :
    SfromHeader.parse (le32 m ++ rest) = .ok (rest.drop 44,
      ⟨m % 4294967296, leNum (rest.take 4), leNum ((rest.drop 4).take 4),
       leNum ((rest.drop 8).take 4), leNum ((rest.drop 12).take 4),
       leNum ((rest.drop 16).take 4), leNum ((rest.drop 20).take 4),
       leNum ((rest.drop 24).take 4), leNum ((rest.drop 28).take 4),
       (rest.drop 32).take 8, leNum ((rest.drop 40).take 4)⟩) := by
  rw [SfromHeader.parse]
  rw [rdU32_ok _ (by simp [le32])]
  rw [List.take_left' (by simp [le32]), List.drop_left' (by simp [le32]), leNum_le32]
  simp only []
  rw [rdU32_ok _ (by omega)]; simp only []
  rw [rdU32_ok _ (by simp only [List.length_drop]; omega)]; simp only []
  rw [rdU32_ok _ (by simp only [List.length_drop]; omega)]; simp only []
  rw [rdU32_ok _ (by simp only [List.length_drop]; omega)]; simp only []
  rw [rdU32_ok _ (by simp only [List.length_drop]; omega)]; simp only []
  rw [rdU32_ok _ (by simp only [List.length_drop]; omega)]; simp only []
  rw [rdU32_ok _ (by simp only [List.length_drop]; omega)]; simp only []
  rw [rdU32_ok _ (by simp only [List.length_drop]; omega)]; simp only []
  rw [rdTake_ok _ _ (by simp only [List.length_drop]; omega)]; simp only []
  rw [rdU32_ok _ (by simp only [List.length_drop]; omega)]
  simp only [List.drop_drop]

/-- Parse success of the container body depends on the header only
through its four region offsets, never through the magic, sizes or
reserved fields. -/
theorem parseBody_isOk_congr (h1 h2 : SfromHeader) (input : List Nat)
    (e1 : h1.rom_location = h2.rom_location)
    (e2 : h1.pcm_samples_location = h2.pcm_samples_location)
    (e3 : h1.pcm_footer_location = h2.pcm_footer_location)
    (e4 : h1.footer_location = h2.footer_location) :
    isOkResult (Sfrom.parseBody h1 input) = isOkResult (Sfrom.parseBody h2 input) := by
  simp only [Sfrom.parseBody, Sfrom.romEnd, e1, e2, e3, e4]
  repeat' first | rfl | split

/-- The tag loop returns immediately on an empty remainder. -/
theorem parseLoop_nil (fuel : Nat) (acc : GameTagData) :
    GameTagData.parseLoop fuel acc [] = .ok ([], acc) := by
  cases fuel <;> rfl

/-- The tag loop stops without error on any unknown head byte and
returns the whole remainder unconsumed, whatever the accumulated
table is. -/
theorem parseLoop_unknown (fuel : Nat) (acc : GameTagData) (b : Nat) (rest : List Nat)
    (hA : b ≠ 65) (hD : b ≠ 68) (hG : b ≠ 71) :
    GameTagData.parseLoop fuel acc (b :: rest) = .ok (b :: rest, acc) := by
  cases fuel with
  | zero => rfl
  | succ f =>
      rw [GameTagData.parseLoop]
      rw [if_neg hA, if_neg hD, if_neg hG]

/-- A successful threshold-tag parse consumes at least one byte. -/
theorem parse_tag_a_shrink (input r : List Nat) (d : List Nat)
    (h : GameTagData.parse_tag_a input = .ok (r, d)) : r.length < input.length := by
  match input with
  | [] => exact absurd h (by simp [GameTagData.parse_tag_a])
  | b :: rest =>
      rw [GameTagData.parse_tag_a] at h
      by_cases hb : b = 65
      · rw [if_pos hb] at h
        by_cases hl : rest.length < 3
        · rw [if_pos hl] at h; exact absurd h (by simp)
        · rw [if_neg hl] at h
          simp only [Except.ok.injEq, Prod.mk.injEq] at h
          obtain ⟨h1, h2⟩ := h
          subst h1
          simp only [List.length_drop, List.length_cons]
          omega
      · rw [if_neg hb] at h; exact absurd h (by simp)

/-- A successful embedded-data-tag parse consumes at least one byte. -/
theorem parse_tag_d_shrink (input r : List Nat) (d : List Nat)
    (h : GameTagData.parse_tag_d input = .ok (r, d)) : r.length < input.length := by
  match input with
  | [] => exact absurd h (by simp [GameTagData.parse_tag_d])
  | b :: rest =>
      rw [GameTagData.parse_tag_d] at h
      by_cases hb : b = 68
      · rw [if_pos hb] at h
        by_cases hl : rest.length < 3
        · rw [if_pos hl] at h; exact absurd h (by simp)
        · rw [if_neg hl] at h
          simp only [] at h
          by_cases hl2 : (rest.drop 3).length < leNum (rest.take 3)
          · rw [if_pos hl2] at h; exact absurd h (by simp)
          · rw [if_neg hl2] at h
            simp only [Except.ok.injEq, Prod.mk.injEq] at h
            obtain ⟨h1, h2⟩ := h
            subst h1
            simp only [List.length_drop, List.length_cons]
            omega
      · rw [if_neg hb] at h; exact absurd h (by simp)

/-- A successful preset-tag parse consumes at least one byte. -/
theorem parse_tag_g_shrink (input r : List Nat) (d : Nat)
    (h : GameTagData.parse_tag_g input = .ok (r, d)) : r.length < input.length := by
  match input with
  | [] => exact absurd h (by simp [GameTagData.parse_tag_g])
  | b :: rest =>
      rw [GameTagData.parse_tag_g] at h
      by_cases hb : b = 71
      · rw [if_pos hb] at h
        by_cases hl : rest.length < 3
        · rw [if_pos hl] at h; exact absurd h (by simp)
        · rw [if_neg hl] at h
          simp only [] at h
          by_cases hl2 : (rest.drop 3).length < 2
          · rw [if_pos hl2] at h; exact absurd h (by simp)
          · rw [if_neg hl2] at h
            simp only [Except.ok.injEq, Prod.mk.injEq] at h
            obtain ⟨h1, h2⟩ := h
            subst h1
            simp only [List.length_drop, List.length_cons]
            omega
      · rw [if_neg hb] at h; exact absurd h (by simp)

/-- Whatever the tag loop returns, the unconsumed suffix is no longer
than its input. -/
theorem parseLoop_length (fuel : Nat) : ∀ (acc : GameTagData) (rem r : List Nat)
    (t : GameTagData), GameTagData.parseLoop fuel acc rem = .ok (r, t) →
    r.length ≤ rem.length := by
  induction fuel with
  | zero =>
      intro acc rem r t h
      cases rem with
      | nil =>
          simp only [parseLoop_nil, Except.ok.injEq, Prod.mk.injEq] at h
          obtain ⟨h1, _⟩ := h; subst h1; simp
      | cons b rest =>
          rw [GameTagData.parseLoop] at h
          simp only [Except.ok.injEq, Prod.mk.injEq] at h
          obtain ⟨h1, _⟩ := h; subst h1; simp
  | succ f ih =>
      intro acc rem r t h
      cases rem with
      | nil =>
          simp only [parseLoop_nil, Except.ok.injEq, Prod.mk.injEq] at h
          obtain ⟨h1, _⟩ := h; subst h1; simp
      | cons b rest =>
          rw [GameTagData.parseLoop] at h
          by_cases hA : b = 65
          · rw [if_pos hA] at h
            cases h2 : GameTagData.parse_tag_a (b :: rest) with
            | error e => rw [h2] at h; exact absurd h (by simp)
            | ok v =>
                obtain ⟨ni, data⟩ := v
                rw [h2] at h
                simp only [] at h
                have hle := ih _ _ _ _ h
                have hlt := parse_tag_a_shrink _ _ _ h2
                omega
          · rw [if_neg hA] at h
            by_cases hD : b = 68
            · rw [if_pos hD] at h
              cases h2 : GameTagData.parse_tag_d (b :: rest) with
              | error e => rw [h2] at h; exact absurd h (by simp)
              | ok v =>
                  obtain ⟨ni, data⟩ := v
                  rw [h2] at h
                  simp only [] at h
                  have hle := ih _ _ _ _ h
                  have hlt := parse_tag_d_shrink _ _ _ h2
                  omega
            · rw [if_neg hD] at h
              by_cases hG : b = 71
              · rw [if_pos hG] at h
                cases h2 : GameTagData.parse_tag_g (b :: rest) with
                | error e => rw [h2] at h; exact absurd h (by simp)
                | ok v =>
                    obtain ⟨ni, data⟩ := v
                    rw [h2] at h
                    simp only [] at h
                    have hle := ih _ _ _ _ h
                    have hlt := parse_tag_g_shrink _ _ _ h2
                    omega
              · rw [if_neg hG] at h
                simp only [Except.ok.injEq, Prod.mk.injEq] at h
                obtain ⟨h1, _⟩ := h; subst h1; simp

/-- Fuel irrelevance: any fuel of at least the remaining length gives
the same result, because every continuing iteration consumes at least
one byte. -/
theorem parseLoop_fuel (fuel : Nat) : ∀ (fuel2 : Nat) (acc : GameTagData) (rem : List Nat),
    rem.length ≤ fuel → rem.length ≤ fuel2 →
    GameTagData.parseLoop fuel acc rem = GameTagData.parseLoop fuel2 acc rem := by
  induction fuel with
  | zero =>
      intro fuel2 acc rem h1 h2
      have h0 : rem = [] := List.eq_nil_of_length_eq_zero (by omega)
      subst h0
      rw [parseLoop_nil, parseLoop_nil]
  | succ f ih =>
      intro fuel2 acc rem h1 h2
      cases rem with
      | nil => rw [parseLoop_nil, parseLoop_nil]
      | cons b rest =>
          cases fuel2 with
          | zero => simp at h2
          | succ g =>
              simp only [List.length_cons] at h1 h2
              rw [GameTagData.parseLoop]
              conv_rhs => rw [GameTagData.parseLoop]
              by_cases hA : b = 65
              case pos =>
                rw [if_pos hA, if_pos hA]
                cases h3 : GameTagData.parse_tag_a (b :: rest) with
                | error e => rfl
                | ok v =>
                    obtain ⟨ni, data⟩ := v
                    have hs := parse_tag_a_shrink _ _ _ h3
                    simp only [List.length_cons] at hs
                    exact ih g _ ni (by omega) (by omega)
              case neg =>
                rw [if_neg hA, if_neg hA]
                by_cases hD : b = 68
                case pos =>
                  rw [if_pos hD, if_pos hD]
                  cases h3 : GameTagData.parse_tag_d (b :: rest) with
                  | error e => rfl
                  | ok v =>
                      obtain ⟨ni, data⟩ := v
                      have hs := parse_tag_d_shrink _ _ _ h3
                      simp only [List.length_cons] at hs
                      exact ih g _ ni (by omega) (by omega)
                case neg =>
                  rw [if_neg hD, if_neg hD]
                  by_cases hG : b = 71
                  case pos =>
                    rw [if_pos hG, if_pos hG]
                    cases h3 : GameTagData.parse_tag_g (b :: rest) with
                    | error e => rfl
                    | ok v =>
                        obtain ⟨ni, data⟩ := v
                        have hs := parse_tag_g_shrink _ _ _ h3
                        simp only [List.length_cons] at hs
                        exact ih g _ ni (by omega) (by omega)
                  case neg =>
                    rw [if_neg hG, if_neg hG]

/-- Evaluating the threshold-tag parser on a well-shaped encoding. -/
theorem parse_tag_a_eval (a rest : List Nat) (ha : a.length = 3) :
    GameTagData.parse_tag_a (65 :: (a ++ rest)) = .ok (rest, a) := by
  rw [GameTagData.parse_tag_a]
  rw [if_pos rfl, if_neg (by simp [ha])]
  rw [List.drop_left' ha, List.take_left' ha]

/-- Evaluating the embedded-data-tag parser on a well-shaped encoding
(3-byte little-endian length prefix, then the payload). -/
theorem parse_tag_d_eval (d rest : List Nat) (hd : d.length < 16777216) :
    GameTagData.parse_tag_d (68 :: ((le32 d.length).take 3 ++ (d ++ rest))) =
      .ok (rest, d) := by
  rw [GameTagData.parse_tag_d]
  have hp3 : ((le32 d.length).take 3).length = 3 := by simp [le32]
  rw [if_pos rfl, if_neg (by simp [hp3])]
  simp only []
  rw [List.take_left' hp3, List.drop_left' hp3]
  have hsize : leNum ((le32 d.length).take 3) = d.length := by
    simp only [le32, leNum, List.take, List.foldr]
    omega
  rw [hsize]
  rw [if_neg (by simp)]
  rw [List.drop_left' rfl, List.take_left' rfl]

/-- Evaluating the preset-tag parser on a well-shaped encoding
(any 3 skipped bytes, then a 2-byte little-endian value). -/
theorem parse_tag_g_eval (skip : List Nat) (n : Nat) (rest : List Nat)
    (hs : skip.length = 3) (hn : n < 65536) :
    GameTagData.parse_tag_g (71 :: (skip ++ (le16 n ++ rest))) = .ok (rest, n) := by
  rw [GameTagData.parse_tag_g]
  rw [if_pos rfl, if_neg (by simp [hs])]
  simp only []
  rw [List.drop_left' hs]
  have hl16 : (le16 n).length = 2 := by simp [le16]
  rw [if_neg (by simp [hl16])]
  rw [List.drop_left' hl16, List.take_left' hl16]
  have hv : leNum (le16 n) = n := by
    have := leNum_le16 n
    omega
  rw [hv]

/-- One loop iteration over a well-shaped threshold tag: consume it,
overwrite `armet_threshold`, continue with the loop at a canonical
fuel. -/
theorem parseLoop_step_a (f : Nat) (acc : GameTagData) (a rest : List Nat)
    (ha : a.length = 3) (hf : rest.length ≤ f) :
    GameTagData.parseLoop (f + 1) acc (65 :: (a ++ rest)) =
      GameTagData.parseLoop rest.length
        { acc with armet_threshold := some a } rest := by
  rw [GameTagData.parseLoop]
  rw [if_pos rfl, parse_tag_a_eval a rest ha]
  simp only []
  exact parseLoop_fuel f rest.length _ rest hf le_rfl

/-- One loop iteration over a well-shaped embedded-data tag. -/
theorem parseLoop_step_d (f : Nat) (acc : GameTagData) (d rest : List Nat)
    (hd : d.length < 16777216) (hf : rest.length ≤ f) :
    GameTagData.parseLoop (f + 1) acc (68 :: ((le32 d.length).take 3 ++ (d ++ rest))) =
      GameTagData.parseLoop rest.length { acc with sdd1_data := some d } rest := by
  rw [GameTagData.parseLoop]
  rw [if_neg (by omega), if_pos rfl, parse_tag_d_eval d rest hd]
  simp only []
  exact parseLoop_fuel f rest.length _ rest hf le_rfl

/-- One loop iteration over a well-shaped preset tag. -/
theorem parseLoop_step_g (f : Nat) (acc : GameTagData) (skip : List Nat) (n : Nat)
    (rest : List Nat) (hs : skip.length = 3) (hn : n < 65536) (hf : rest.length ≤ f) :
    GameTagData.parseLoop (f + 1) acc (71 :: (skip ++ (le16 n ++ rest))) =
      GameTagData.parseLoop rest.length { acc with preset_id := some n } rest := by
  rw [GameTagData.parseLoop]
  rw [if_neg (by omega), if_neg (by omega), if_pos rfl, parse_tag_g_eval skip n rest hs hn]
  simp only []
  exact parseLoop_fuel f rest.length _ rest hf le_rfl

/-- Top-level parse of a buffer beginning with a threshold tag. -/
theorem parse_cons_a (a rest : List Nat) (ha : a.length = 3) :
    GameTagData.parse (65 :: (a ++ rest)) =
      GameTagData.parseLoop rest.length
        { GameTagData.empty with armet_threshold := some a } rest := by
  rw [GameTagData.parse]
  have hl : (65 :: (a ++ rest)).length = (a.length + rest.length) + 1 := by
    simp
  rw [hl, ha]
  exact parseLoop_step_a _ _ a rest ha (by omega)

/-- Top-level parse of a buffer beginning with an embedded-data tag. -/
theorem parse_cons_d (d rest : List Nat) (hd : d.length < 16777216) :
    GameTagData.parse (68 :: ((le32 d.length).take 3 ++ (d ++ rest))) =
      GameTagData.parseLoop rest.length
        { GameTagData.empty with sdd1_data := some d } rest := by
  rw [GameTagData.parse]
  have hp3 : ((le32 d.length).take 3).length = 3 := by simp [le32]
  have hl : (68 :: ((le32 d.length).take 3 ++ (d ++ rest))).length =
      (3 + d.length + rest.length) + 1 := by
    simp [hp3]; omega
  rw [hl]
  exact parseLoop_step_d _ _ d rest hd (by omega)

/-- Top-level parse of a buffer beginning with a preset tag. -/
theorem parse_cons_g (skip : List Nat) (n : Nat) (rest : List Nat)
    (hs : skip.length = 3) (hn : n < 65536) :
    GameTagData.parse (71 :: (skip ++ (le16 n ++ rest))) =
      GameTagData.parseLoop rest.length
        { GameTagData.empty with preset_id := some n } rest := by
  rw [GameTagData.parse]
  have hl16 : (le16 n).length = 2 := by simp [le16]
  have hl : (71 :: (skip ++ (le16 n ++ rest))).length =
      (5 + rest.length) + 1 := by
    simp [hs, hl16]; omega
  rw [hl]
  exact parseLoop_step_g _ _ skip n rest hs hn (by omega)

/-- The header section that `Sfrom::write` emits is exactly 48 bytes
whenever the platform identifier has its mandated 8 bytes. -/
theorem headerBytes_length (s : Sfrom) (h : s.header.wiiu_game_id.length = 8) :
    (Sfrom.headerBytes s).length = 48 := by
  simp [Sfrom.headerBytes, le32, h]

/-- C1: the spec claims `parse(write(c)) == c` for every container the
writer can serialize.  The code violates this: `Sfrom::parse` applies
the header offsets to the nom remainder (the buffer minus its first
48 bytes) and requires `remainder.len() ≥ rom_end`, while
`Sfrom::write` stores absolute file offsets (and sizes its total with
a 35-byte footer constant although it writes 27 footer bytes), so
parsing the writer's own 85-byte output for the concrete scenario
container fails with the nom `Eof` error instead of returning the
container. -/
theorem claim1_parse_write_roundtrip_fails :
    Sfrom.parse (Sfrom.writeBytes exContainer) = .error .eof := by rfl

/-- C2 counterexample: the footer encoder emits 27 bytes, not 35, and
the footer decoder succeeds on a 27-byte buffer, so decode does not
require 35 bytes. -/
theorem claim2_counterexample :
    (SfromFooter.encode exFooter).length = 27 ∧
    ¬ (SfromFooter.encode exFooter).length = 35 ∧
    isOkResult (SfromFooter.parse (List.replicate 27 0)) = true := by
  refine ⟨by rfl, by decide, by rfl⟩

/-- C2 amended: the footer codec is 27 bytes wide — encode always
produces exactly 27 bytes with no failure mode; decode succeeds
exactly on inputs of at least 27 bytes (failing with the nom `Eof`
error otherwise) and reads one byte, three 32-bit little-endian
fields, one 16-bit field, four single bytes and two 32-bit fields in
that fixed order, as witnessed by decode inverting encode. -/
theorem claim2_footer_codec_is_27_bytes :
    (∀ f : SfromFooter, (SfromFooter.encode f).length = 27) ∧
    (∀ input : List Nat,
      isOkResult (SfromFooter.parse input) = true ↔ 27 ≤ input.length) ∧
    (∀ (f : SfromFooter) (rest : List Nat), f.wf →
      SfromFooter.parse (SfromFooter.encode f ++ rest) = .ok (rest, f)) := by
  refine ⟨?_, ?_, ?_⟩
  · intro f
    simp [SfromFooter.encode, le32, le16]
  · intro input
    constructor
    · intro h
      by_contra hlt
      rw [footer_parse_short input (by omega)] at h
      simp [isOkResult] at h
    · intro h
      rw [footer_parse_char input h]
      rfl
  · exact footer_roundtrip

/-- C2 witness: the concrete scenario footer round-trips through the
27-byte codec. -/
theorem claim2_witness :
    SfromFooter.parse (SfromFooter.encode exFooter ++ []) = .ok ([], exFooter) :=
  claim2_footer_codec_is_27_bytes.2.2 exFooter []
    ⟨by decide, by decide, by decide, by decide, by decide, by decide,
     by decide, by decide, by decide, by decide, by decide⟩

/-- C3 counterexample: a 68-byte buffer whose header declares an
audio-trailer offset of 200 (beyond the buffer) makes `Sfrom::parse`
panic through an out-of-range slice (modelled as `PErr.sliceOob`)
instead of failing with an out-of-bounds error value. -/
theorem claim3_counterexample :
    cexBufOob.length = 68 ∧
    leNum ((cexBufOob.drop 16).take 4) = 200 ∧
    Sfrom.parse cexBufOob = .error .sliceOob := by
  refine ⟨by rfl, by rfl, by rfl⟩

/-- C3 amended: the only explicit bounds check in `Sfrom::parse` is on
the post-header remainder: whenever the remainder is shorter than the
computed `rom_end`, parse fails with the nom `Eof` error and returns
no partial result; offsets that exceed the buffer in other ways panic
via slicing rather than producing an error value. -/
theorem claim3_short_remainder_is_eof (input rest : List Nat) (hdr : SfromHeader)
    (hparse : SfromHeader.parse input = .ok (rest, hdr))
    (hshort : rest.length < Sfrom.romEnd hdr) :
    Sfrom.parse input = .error .eof := by
  rw [Sfrom.parse, hparse]
  simp only [Sfrom.parseBody]
  rw [if_pos hshort]

/-- C3 witness: a 48-byte buffer whose offsets declare `rom_end = 5`
with an empty remainder fails with the `Eof` error. -/
theorem claim3_witness : Sfrom.parse cexBufShortRom = .error .eof :=
  claim3_short_remainder_is_eof cexBufShortRom [] cexHdrShortRom (by rfl) (by decide)

/-- C4 counterexample: a 75-byte all-zero buffer has magic 0, not
0x100, yet container parse succeeds — no `BadMagic` failure exists in
the code. -/
theorem claim4_counterexample :
    48 ≤ cexBufNoMagic.length ∧
    leNum (cexBufNoMagic.take 4) ≠ 0x100 ∧
    isOkResult (Sfrom.parse cexBufNoMagic) = true := by
  refine ⟨by decide, by decide, by rfl⟩

/-- C4 amended: `Sfrom::parse` never validates the magic constant:
replacing the first four bytes of any buffer with the little-endian
encoding of an arbitrary value changes neither parse success nor
failure relative to the correct magic 0x100. -/
theorem claim4_magic_never_checked (m : Nat) (rest : List Nat) :
    isOkResult (Sfrom.parse (le32 m ++ rest)) =
      isOkResult (Sfrom.parse (le32 0x100 ++ rest)) := by
  by_cases hlen : 44 ≤ rest.length
  · rw [Sfrom.parse, header_parse_append m rest hlen]
    conv_rhs => rw [Sfrom.parse, header_parse_append 0x100 rest hlen]
    simp only []
    exact parseBody_isOk_congr _ _ _ rfl rfl rfl rfl
  · rw [Sfrom.parse, header_parse_short _ (by simp [le32]; omega)]
    conv_rhs => rw [Sfrom.parse, header_parse_short _ (by simp [le32]; omega)]

/-- C5: tag-table decode stops without error as soon as the next head
byte is not one of the known codes 65/68/71 (or the buffer is empty),
returning every remaining byte unconsumed; in particular a buffer
starting with an unrecognized byte yields the all-absent table and
the whole buffer as unconsumed suffix. -/
theorem claim5_unknown_tag_stops_without_error :
    (GameTagData.parse [] = .ok ([], GameTagData.empty)) ∧
    (∀ (fuel : Nat) (acc : GameTagData) (b : Nat) (rest : List Nat),
      b ≠ 65 → b ≠ 68 → b ≠ 71 →
      GameTagData.parseLoop fuel acc (b :: rest) = .ok (b :: rest, acc)) ∧
    (∀ (b : Nat) (rest : List Nat), b ≠ 65 → b ≠ 68 → b ≠ 71 →
      GameTagData.parse (b :: rest) = .ok (b :: rest, GameTagData.empty)) := by
  refine ⟨rfl, ?_, ?_⟩
  · intro fuel acc b rest hA hD hG
    exact parseLoop_unknown fuel acc b rest hA hD hG
  · intro b rest hA hD hG
    exact parseLoop_unknown _ _ b rest hA hD hG

/-- C5 witness: byte 90 is unknown, so decoding `[90, 1, 2]` returns
the empty table and the full buffer. -/
theorem claim5_witness :
    GameTagData.parse (90 :: [1, 2]) = .ok (90 :: [1, 2], GameTagData.empty) :=
  claim5_unknown_tag_stops_without_error.2.2 90 [1, 2]
    (by decide) (by decide) (by decide)

/-- C6 counterexample: on the concrete scenario container the writer
emits 85 bytes, not the 93 the claim demands (its footer section is
27 bytes, not 35). -/
theorem claim6_counterexample : (Sfrom.writeBytes exContainer).length ≠ 93 := by
  decide

/-- C6 amended: for the scenario container (10-byte ROM, no audio,
footer fields as given, empty tag table) `write` emits exactly 85
bytes — a 48-byte header, the 10 ROM bytes and a 27-byte footer —
while the header's total-size field still reads 93 (computed with the
0x23 footer constant), `rom_offset` reads 48 and the three audio and
footer offsets all read 58. -/
theorem claim6_write_output_is_85_bytes :
    (Sfrom.writeBytes exContainer).length = 85 ∧
    (Sfrom.headerBytes exContainer).length = 48 ∧
    exContainer.rom_data.length = 10 ∧
    (SfromFooter.encode exContainer.footer).length = 27 ∧
    Sfrom.writeBytes exContainer =
      Sfrom.headerBytes exContainer ++ exContainer.rom_data ++
        SfromFooter.encode exContainer.footer ∧
    (Sfrom.writeBytes exContainer).take 4 = le32 0x100 ∧
    ((Sfrom.writeBytes exContainer).drop 4).take 4 = le32 93 ∧
    ((Sfrom.writeBytes exContainer).drop 8).take 4 = le32 48 ∧
    ((Sfrom.writeBytes exContainer).drop 12).take 4 = le32 58 ∧
    ((Sfrom.writeBytes exContainer).drop 16).take 4 = le32 58 ∧
    ((Sfrom.writeBytes exContainer).drop 20).take 4 = le32 58 := by
  refine ⟨by rfl, by rfl, by rfl, by rfl, by decide, by rfl, by rfl, by rfl,
    by rfl, by rfl, by rfl⟩

/-- C7 counterexample: `write_game_tags` on a table whose only present
tag is the preset identifier 0x1234 emits nothing at all, not the
six claimed bytes. -/
theorem claim7_counterexample :
    GameTagData.write_game_tags gTagOnlyPreset = [] ∧
    (GameTagData.write_game_tags gTagOnlyPreset).length ≠ 6 := by
  refine ⟨by rfl, by decide⟩

/-- C7 amended: the tag writer only ever emits the threshold tag (65)
and the embedded-data tag (68); every table without those two tags —
whatever other tags it holds — encodes to the empty byte string. -/
theorem claim7_only_tags_a_and_d_are_written (t : GameTagData)
    (h1 : t.armet_threshold = none) (h2 : t.sdd1_data = none) :
    GameTagData.write_game_tags t = [] := by
  rw [GameTagData.write_game_tags, h1, h2]
  rfl

/-- C7 witness: a table holding only a preset identifier and a volume
tag encodes to nothing. -/
theorem claim7_witness : GameTagData.write_game_tags gTagOtherOnly = [] :=
  claim7_only_tags_a_and_d_are_written gTagOtherOnly rfl rfl

/-- C8: the 48-byte header that `write` emits is canonical: the output
bytes depend on the stored header only through `sdd1_data_offset`,
`unknown1` and `wiiu_game_id` (never through its magic, size, offset
or reserved fields), and the emitted header prefix consists of the
fixed magic 0x100, the recomputed total size and offsets, and two
zero reserved words. -/
theorem claim8_written_header_is_canonical :
    (∀ (s : Sfrom) (h2 : SfromHeader),
      h2.sdd1_data_offset = s.header.sdd1_data_offset →
      h2.unknown1 = s.header.unknown1 →
      h2.wiiu_game_id = s.header.wiiu_game_id →
      Sfrom.writeBytes { s with header := h2 } = Sfrom.writeBytes s) ∧
    (∀ s : Sfrom, s.header.wiiu_game_id.length = 8 →
      (Sfrom.writeBytes s).take 48 =
        le32 0x100 ++ le32 (Sfrom.totalSize s) ++ le32 48 ++
          le32 (Sfrom.layout s).1 ++ le32 (Sfrom.layout s).2.1 ++
          le32 (Sfrom.layout s).2.2 ++ le32 s.header.sdd1_data_offset ++
          le32 0 ++ le32 s.header.unknown1 ++ s.header.wiiu_game_id ++ le32 0) := by
  constructor
  · intro s h2 e1 e2 e3
    simp only [Sfrom.writeBytes, Sfrom.headerBytes, Sfrom.totalSize, Sfrom.layout,
      Sfrom.gameTagsSize, Sfrom.pcmBytes, e1, e2, e3]
  · intro s h
    rw [Sfrom.writeBytes]
    simp only [List.append_assoc]
    rw [List.take_left' (headerBytes_length s h)]
    rw [Sfrom.headerBytes]
    simp only [List.append_assoc]

/-- C8 witness: scrambling every non-carried header field of the
scenario container leaves the written bytes unchanged, and its
48-byte prefix is the canonical header. -/
theorem claim8_witness :
    Sfrom.writeBytes { exContainer with header := exHeaderScrambled } =
      Sfrom.writeBytes exContainer ∧
    (Sfrom.writeBytes exContainer).take 48 =
      le32 0x100 ++ le32 (Sfrom.totalSize exContainer) ++ le32 48 ++
        le32 (Sfrom.layout exContainer).1 ++ le32 (Sfrom.layout exContainer).2.1 ++
        le32 (Sfrom.layout exContainer).2.2 ++
        le32 exContainer.header.sdd1_data_offset ++ le32 0 ++
        le32 exContainer.header.unknown1 ++ exContainer.header.wiiu_game_id ++
        le32 0 :=
  ⟨claim8_written_header_is_canonical.1 exContainer exHeaderScrambled rfl rfl rfl,
   claim8_written_header_is_canonical.2 exContainer (by decide)⟩

/-- C9: the tag loop terminates on every finite buffer — each
successful tag parse strictly consumes input, and the loop's
unconsumed suffix never exceeds its input (the loop itself is total
by construction, with fuel shown irrelevant in
`parseLoop_fuel`). -/
theorem claim9_tag_loop_terminates :
    (∀ (input r d : List Nat), GameTagData.parse_tag_a input = .ok (r, d) →
      r.length < input.length) ∧
    (∀ (input r d : List Nat), GameTagData.parse_tag_d input = .ok (r, d) →
      r.length < input.length) ∧
    (∀ (input r : List Nat) (d : Nat), GameTagData.parse_tag_g input = .ok (r, d) →
      r.length < input.length) ∧
    (∀ (input r : List Nat) (t : GameTagData),
      GameTagData.parse input = .ok (r, t) → r.length ≤ input.length) := by
  refine ⟨parse_tag_a_shrink, parse_tag_d_shrink, parse_tag_g_shrink, ?_⟩
  intro input r t h
  exact parseLoop_length input.length GameTagData.empty input r t h

/-- C9 witness: parsing the well-formed threshold tag `[65, 1, 2, 3]`
consumes the whole input, strictly at the single-tag level. -/
theorem claim9_witness :
    ([] : List Nat).length < ([65, 1, 2, 3] : List Nat).length ∧
    ([] : List Nat).length ≤ ([65, 1, 2, 3] : List Nat).length :=
  ⟨claim9_tag_loop_terminates.1 [65, 1, 2, 3] [] [1, 2, 3] (by rfl),
   claim9_tag_loop_terminates.2.2.2 [65, 1, 2, 3] []
     { GameTagData.empty with armet_threshold := some [1, 2, 3] } (by rfl)⟩

/-- C10: repeated occurrences of the same known tag code before the
first unknown byte do not fail — a duplicated leading tag is simply
absorbed, each later occurrence overwriting the earlier payload, so
the final table holds the payload of the last occurrence (stated for
the threshold tag 65, the embedded-data tag 68 and the preset tag
71, with two concrete last-occurrence results). -/
theorem claim10_duplicate_tags_overwrite :
    (∀ (a1 a2 rest : List Nat), a1.length = 3 → a2.length = 3 →
      GameTagData.parse ((65 :: a1) ++ ((65 :: a2) ++ rest)) =
        GameTagData.parse ((65 :: a2) ++ rest)) ∧
    (∀ (d1 d2 rest : List Nat), d1.length < 16777216 → d2.length < 16777216 →
      GameTagData.parse ((68 :: ((le32 d1.length).take 3 ++ d1)) ++
          ((68 :: ((le32 d2.length).take 3 ++ d2)) ++ rest)) =
        GameTagData.parse ((68 :: ((le32 d2.length).take 3 ++ d2)) ++ rest)) ∧
    (∀ (s1 s2 : List Nat) (n1 n2 : Nat) (rest : List Nat),
      s1.length = 3 → s2.length = 3 → n1 < 65536 → n2 < 65536 →
      GameTagData.parse ((71 :: (s1 ++ le16 n1)) ++ ((71 :: (s2 ++ le16 n2)) ++ rest)) =
        GameTagData.parse ((71 :: (s2 ++ le16 n2)) ++ rest)) ∧
    (∀ (a1 a2 : List Nat), a1.length = 3 → a2.length = 3 →
      GameTagData.parse ((65 :: a1) ++ (65 :: a2)) =
        .ok ([], { GameTagData.empty with armet_threshold := some a2 })) ∧
    (∀ (s1 s2 : List Nat) (n1 n2 : Nat),
      s1.length = 3 → s2.length = 3 → n1 < 65536 → n2 < 65536 →
      GameTagData.parse ((71 :: (s1 ++ le16 n1)) ++ (71 :: (s2 ++ le16 n2))) =
        .ok ([], { GameTagData.empty with preset_id := some n2 })) := by
  refine ⟨?_, ?_, ?_, ?_, ?_⟩
  · intro a1 a2 rest h1 h2
    simp only [List.cons_append, List.append_assoc]
    rw [parse_cons_a a1 _ h1]
    rw [List.length_cons]
    rw [parseLoop_step_a _ _ a2 rest h2 (by simp)]
    rw [parse_cons_a a2 rest h2]
  · intro d1 d2 rest h1 h2
    simp only [List.cons_append, List.append_assoc]
    rw [parse_cons_d d1 _ h1]
    rw [List.length_cons]
    have hp3 : ((le32 d2.length).take 3).length = 3 := by simp [le32]
    rw [parseLoop_step_d _ _ d2 rest h2 (by simp [hp3]; omega)]
    rw [parse_cons_d d2 rest h2]
  · intro s1 s2 n1 n2 rest hs1 hs2 hn1 hn2
    simp only [List.cons_append, List.append_assoc]
    rw [parse_cons_g s1 n1 _ hs1 hn1]
    rw [List.length_cons]
    rw [parseLoop_step_g _ _ s2 n2 rest hs2 hn2 (by simp [hs2, le16]; omega)]
    rw [parse_cons_g s2 n2 rest hs2 hn2]
  · intro a1 a2 h1 h2
    have e0 : (65 :: a2) = 65 :: (a2 ++ []) := by simp
    rw [e0]
    simp only [List.cons_append, List.append_assoc]
    rw [parse_cons_a a1 _ h1]
    rw [List.length_cons]
    rw [parseLoop_step_a _ _ a2 [] h2 (by simp)]
    rw [parseLoop_nil]
  · intro s1 s2 n1 n2 hs1 hs2 hn1 hn2
    have e0 : (71 :: (s2 ++ le16 n2)) = 71 :: (s2 ++ (le16 n2 ++ [])) := by simp
    rw [e0]
    simp only [List.cons_append, List.append_assoc]
    rw [parse_cons_g s1 n1 _ hs1 hn1]
    rw [List.length_cons]
    rw [parseLoop_step_g _ _ s2 n2 [] hs2 hn2 (by simp)]
    rw [parseLoop_nil]

/-- C10 witness: two concrete duplicated-tag buffers — the duplicated
threshold tag is absorbed, and two preset tags leave the last preset
value 0x5678 in the table. -/
theorem claim10_witness :
    GameTagData.parse ((65 :: [1, 2, 3]) ++ ((65 :: [4, 5, 6]) ++ [90])) =
      GameTagData.parse ((65 :: [4, 5, 6]) ++ [90]) ∧
    GameTagData.parse ((71 :: ([0, 0, 0] ++ le16 0x1234)) ++
        (71 :: ([0, 0, 0] ++ le16 0x5678))) =
      .ok ([], { GameTagData.empty with preset_id := some 0x5678 }) :=
  ⟨claim10_duplicate_tags_overwrite.1 [1, 2, 3] [4, 5, 6] [90] (by decide) (by decide),
   claim10_duplicate_tags_overwrite.2.2.2.2 [0, 0, 0] [0, 0, 0] 0x1234 0x5678
     (by decide) (by decide) (by decide) (by decide)⟩
